import Mathlib

/-!
Verification of the headless Vulkan rendering example
(`examples/textureimageheadless/textureimageheadless.cpp`).

The development shallowly embeds the pure/structural content of the
`vra::test::RenderImage` class: machine integers become `Nat`/`Int`,
GPU command recording becomes explicit command lists, host memory becomes
functions from byte offsets to byte values, and fallible paths return
`Except`.  Floating-point matrix arithmetic is represented symbolically
(the parameters of `glm::perspective` and `glm::translate` are recorded as
rationals rather than evaluated).
-/

namespace VulkanHeadless

/-! ## Vulkan enumeration constants (numeric values from vulkan_core.h) -/

def VK_FORMAT_R8G8B8A8_UNORM : Nat := 37
def VK_FORMAT_B8G8R8A8_UNORM : Nat := 44
def VK_FORMAT_B8G8R8A8_SNORM : Nat := 45
def VK_FORMAT_B8G8R8A8_SRGB : Nat := 50

def VK_ACCESS_SHADER_READ_BIT : Nat := 32
def VK_ACCESS_TRANSFER_WRITE_BIT : Nat := 4096
def VK_ACCESS_MEMORY_READ_BIT : Nat := 32768

def VK_SHADER_STAGE_VERTEX_BIT : Nat := 1

def VK_QUEUE_GRAPHICS_BIT : Nat := 1

/-! ## `RenderImage::getMemoryTypeIndex` (textureimageheadless.cpp:1616-1628)

The device's memory types are modelled by the list of their
`propertyFlags` values in index order.  The C++ loop tests bit 0 of
`type_bits` (shifting it right once per iteration) and the superset test
`(memoryTypes[i].propertyFlags & properties) == properties`, returning the
loop index `i` at the first hit and `0` after the loop. -/

def memTypeLoop : List Nat → Nat → Nat → Nat → Nat
  | [], _, _, _ => 0
  | flags :: rest, typeBits, properties, i =>
    if typeBits % 2 = 1 ∧ flags &&& properties = properties then i
    else memTypeLoop rest (typeBits / 2) properties (i + 1)

def getMemoryTypeIndex (memoryTypes : List Nat) (typeBits properties : Nat) : Nat :=
  memTypeLoop memoryTypes typeBits properties 0

/-- Memory type `i` qualifies for `(typeBits, properties)`: the index is in
range, bit `i` of `typeBits` is set, and the type's property flags are a
superset of `properties`. -/
def Qualifies (memoryTypes : List Nat) (typeBits properties i : Nat) : Prop :=
  i < memoryTypes.length ∧ (typeBits / 2 ^ i) % 2 = 1 ∧
    memoryTypes.getD i 0 &&& properties = properties

instance (memoryTypes : List Nat) (typeBits properties i : Nat) :
    Decidable (Qualifies memoryTypes typeBits properties i) := by
  unfold Qualifies
  infer_instance

theorem qualifies_cons_succ (flags : Nat) (rest : List Nat) (tb props j : Nat) :
    Qualifies (flags :: rest) tb props (j + 1) ↔ Qualifies rest (tb / 2) props j := by
  unfold Qualifies
  have hdiv : tb / 2 ^ (j + 1) = tb / 2 / 2 ^ j := by
    rw [Nat.div_div_eq_div_mul, pow_succ, Nat.mul_comm (2 ^ j) 2]
  constructor
  · rintro ⟨h1, h2, h3⟩
    refine ⟨by simpa using h1, ?_, by simpa using h3⟩
    rw [← hdiv]
    exact h2
  · rintro ⟨h1, h2, h3⟩
    refine ⟨by simpa using h1, ?_, by simpa using h3⟩
    rw [hdiv]
    exact h2

theorem qualifies_cons_zero (flags : Nat) (rest : List Nat) (tb props : Nat) :
    Qualifies (flags :: rest) tb props 0 ↔ (tb % 2 = 1 ∧ flags &&& props = props) := by
  unfold Qualifies
  simp

theorem memTypeLoop_none (memoryTypes : List Nat) (tb props : Nat)
    (h : ∀ j, ¬ Qualifies memoryTypes tb props j) :
    ∀ i0, memTypeLoop memoryTypes tb props i0 = 0 := by
  induction memoryTypes generalizing tb with
  | nil => intro i0; rfl
  | cons flags rest ih =>
    intro i0
    have h0 : ¬ (tb % 2 = 1 ∧ flags &&& props = props) := by
      intro hc
      exact h 0 ((qualifies_cons_zero flags rest tb props).2 hc)
    rw [memTypeLoop, if_neg h0]
    refine ih (tb / 2) ?_ (i0 + 1)
    intro j hj
    exact h (j + 1) ((qualifies_cons_succ flags rest tb props j).2 hj)

theorem memTypeLoop_found (memoryTypes : List Nat) (tb props : Nat)
    (h : ∃ j, Qualifies memoryTypes tb props j) :
    ∀ i0, ∃ j, Qualifies memoryTypes tb props j ∧
      (∀ k, Qualifies memoryTypes tb props k → j ≤ k) ∧
      memTypeLoop memoryTypes tb props i0 = i0 + j := by
  induction memoryTypes generalizing tb with
  | nil =>
    obtain ⟨j, hj⟩ := h
    exact absurd hj.1 (by simp)
  | cons flags rest ih =>
    intro i0
    by_cases hc : tb % 2 = 1 ∧ flags &&& props = props
    · refine ⟨0, (qualifies_cons_zero flags rest tb props).2 hc, fun k _ => Nat.zero_le k, ?_⟩
      rw [memTypeLoop, if_pos hc]
      omega
    · have hrest : ∃ j, Qualifies rest (tb / 2) props j := by
        obtain ⟨j, hj⟩ := h
        match j with
        | 0 => exact absurd ((qualifies_cons_zero flags rest tb props).1 hj) hc
        | j + 1 => exact ⟨j, (qualifies_cons_succ flags rest tb props j).1 hj⟩
      obtain ⟨j, hq, hmin, heq⟩ := ih (tb / 2) hrest (i0 + 1)
      refine ⟨j + 1, (qualifies_cons_succ flags rest tb props j).2 hq, ?_, ?_⟩
      · intro k hk
        match k with
        | 0 => exact absurd ((qualifies_cons_zero flags rest tb props).1 hk) hc
        | k + 1 =>
          have := hmin k ((qualifies_cons_succ flags rest tb props k).1 hk)
          omega
      · rw [memTypeLoop, if_neg hc, heq]
        omega

/-- C2: for every `(typeBits, flags)` pair such that at least one memory
type qualifies (its bit is set in `typeBits` and its property flags are a
superset of `flags`), `getMemoryTypeIndex` returns the smallest qualifying
index; when no memory type qualifies it returns `0`, a sentinel value
indistinguishable from a genuine match at index `0`. -/
theorem getMemoryTypeIndex_least_or_sentinel (memoryTypes : List Nat) (typeBits properties : Nat) :
    ((∃ i, Qualifies memoryTypes typeBits properties i) →
      Qualifies memoryTypes typeBits properties (getMemoryTypeIndex memoryTypes typeBits properties) ∧
      ∀ k, Qualifies memoryTypes typeBits properties k →
        getMemoryTypeIndex memoryTypes typeBits properties ≤ k) ∧
    ((∀ i, ¬ Qualifies memoryTypes typeBits properties i) →
      getMemoryTypeIndex memoryTypes typeBits properties = 0) := by
  constructor
  · intro hex
    obtain ⟨j, hq, hmin, heq⟩ := memTypeLoop_found memoryTypes typeBits properties hex 0
    have hres : getMemoryTypeIndex memoryTypes typeBits properties = j := by
      unfold getMemoryTypeIndex
      omega
    rw [hres]
    exact ⟨hq, hmin⟩
  · intro hnone
    exact memTypeLoop_none memoryTypes typeBits properties hnone 0

/-- Witness for C2: on a device whose memory types have property flags
`[1, 3, 7]`, with `typeBits = 6` and required flags `3`, index `1` is the
unique smallest qualifying index and `getMemoryTypeIndex` returns it;
and with required flags `8` no type qualifies and the result is `0`. -/
theorem getMemoryTypeIndex_least_or_sentinel_witness :
    (Qualifies [1, 3, 7] 6 3 (getMemoryTypeIndex [1, 3, 7] 6 3) ∧
      ∀ k, Qualifies [1, 3, 7] 6 3 k → getMemoryTypeIndex [1, 3, 7] 6 3 ≤ k) ∧
    getMemoryTypeIndex [1, 3, 7] 6 8 = 0 := by
  refine ⟨(getMemoryTypeIndex_least_or_sentinel [1, 3, 7] 6 3).1 ⟨1, by decide⟩, ?_⟩
  refine (getMemoryTypeIndex_least_or_sentinel [1, 3, 7] 6 8).2 ?_
  intro i
  match i with
  | 0 => decide
  | 1 => decide
  | 2 => decide
  | i + 3 =>
    intro hq
    have := hq.1
    simp at this

/-! ## `RenderImage::saveFramebufferImage` (textureimageheadless.cpp:387-527)

The mapped readback image memory is modelled as a function `mem` from byte
offsets (relative to `imagedata` after the subresource offset has been
added) to byte values.  The pixel write loops mirror the source: the outer
loop advances the row base pointer by `rowPitch` per row, the inner loop
advances the pixel pointer by 4 bytes (one `unsigned int`) per pixel and
writes 3 bytes per pixel, reversed when `color_swizzle` holds. -/

/-- The render target's color format, fixed at
textureimageheadless.cpp:691 (`createFramebufferAttachments`). -/
def color_format : Nat := VK_FORMAT_R8G8B8A8_UNORM

def formatsBGR : List Nat :=
  [VK_FORMAT_B8G8R8A8_SRGB, VK_FORMAT_B8G8R8A8_UNORM, VK_FORMAT_B8G8R8A8_SNORM]

/-- `color_swizzle` as computed at textureimageheadless.cpp:497-499: the
format searched for inside `formatsBGR` is the literal
`VK_FORMAT_R8G8B8A8_UNORM`. -/
def color_swizzle : Bool := formatsBGR.contains VK_FORMAT_R8G8B8A8_UNORM

/-- The 3 bytes written for one pixel whose 4 source bytes start at `off`. -/
def pixelBytes (mem : Nat → Nat) (off : Nat) (swizzle : Bool) : List Nat :=
  if swizzle then [mem (off + 2), mem (off + 1), mem off]
  else [mem off, mem (off + 1), mem (off + 2)]

/-- Inner loop over `x`: one row of pixel writes, the row pointer advancing
by 4 bytes per pixel. -/
def pixelsInRow (mem : Nat → Nat) (swizzle : Bool) : Nat → Nat → List Nat
  | _, 0 => []
  | off, n + 1 => pixelBytes mem off swizzle ++ pixelsInRow mem swizzle (off + 4) n

/-- Outer loop over `y`: the row base pointer advancing by `rowPitch` per row. -/
def rowsLoop (mem : Nat → Nat) (swizzle : Bool) (width rowPitch : Nat) : Nat → Nat → List Nat
  | _, 0 => []
  | base, n + 1 =>
    pixelsInRow mem swizzle base width ++ rowsLoop mem swizzle width rowPitch (base + rowPitch) n

/-- ASCII bytes of the decimal representation written by `operator<<`. -/
def decimalBytes (n : Nat) : List Nat := (Nat.toDigits 10 n).map Char.toNat

/-- The ppm header `"P6\n" << width << "\n" << height << "\n" << 255 << "\n"`
(textureimageheadless.cpp:492). -/
def ppmHeader (width height : Nat) : List Nat :=
  [80, 54, 10] ++ decimalBytes width ++ [10] ++ decimalBytes height ++ [10] ++
    decimalBytes 255 ++ [10]

/-- Every byte `saveFramebufferImage` writes to the output file. -/
def saveFramebufferFileBytes (mem : Nat → Nat) (width height rowPitch : Nat) : List Nat :=
  ppmHeader width height ++ rowsLoop mem color_swizzle width rowPitch 0 height

theorem pixelBytes_length (mem : Nat → Nat) (off : Nat) (sw : Bool) :
    (pixelBytes mem off sw).length = 3 := by
  cases sw <;> rfl

theorem pixelsInRow_length (mem : Nat → Nat) (sw : Bool) :
    ∀ n off, (pixelsInRow mem sw off n).length = n * 3 := by
  intro n
  induction n with
  | zero => intro off; rfl
  | succ n ih =>
    intro off
    rw [pixelsInRow]
    simp [pixelBytes_length, ih]
    ring

theorem rowsLoop_length (mem : Nat → Nat) (sw : Bool) (width rowPitch : Nat) :
    ∀ n base, (rowsLoop mem sw width rowPitch base n).length = n * (width * 3) := by
  intro n
  induction n with
  | zero => intro base; simp [rowsLoop]
  | succ n ih =>
    intro base
    rw [rowsLoop]
    simp [pixelsInRow_length, ih]
    ring

theorem pixelsInRow_getD (mem : Nat → Nat) (sw : Bool) :
    ∀ n off x k, x < n → k < 3 →
      (pixelsInRow mem sw off n).getD (x * 3 + k) 0 =
        (pixelBytes mem (off + 4 * x) sw).getD k 0 := by
  intro n
  induction n with
  | zero => intro off x k hx _; omega
  | succ n ih =>
    intro off x k hx hk
    match x with
    | 0 =>
      rw [pixelsInRow]
      rw [List.getD_append _ _ _ _ (by rw [pixelBytes_length]; omega)]
      simp
    | x + 1 =>
      rw [pixelsInRow]
      rw [List.getD_append_right _ _ _ _ (by rw [pixelBytes_length]; omega)]
      have hidx : (x + 1) * 3 + k - (pixelBytes mem off sw).length = x * 3 + k := by
        rw [pixelBytes_length]; omega
      rw [hidx, ih (off + 4) x k (by omega) hk]
      have harg : off + 4 + 4 * x = off + 4 * (x + 1) := by ring
      rw [harg]

theorem rowsLoop_getD (mem : Nat → Nat) (sw : Bool) (width rowPitch : Nat) :
    ∀ n base y j, y < n → j < width * 3 →
      (rowsLoop mem sw width rowPitch base n).getD (y * (width * 3) + j) 0 =
        (pixelsInRow mem sw (base + y * rowPitch) width).getD j 0 := by
  intro n
  induction n with
  | zero => intro base y j hy _; omega
  | succ n ih =>
    intro base y j hy hj
    match y with
    | 0 =>
      rw [rowsLoop]
      rw [List.getD_append _ _ _ _ (by rw [pixelsInRow_length]; omega)]
      simp
    | y + 1 =>
      have hsplit : (y + 1) * (width * 3) = y * (width * 3) + width * 3 := by ring
      rw [rowsLoop]
      rw [List.getD_append_right _ _ _ _ (by rw [pixelsInRow_length]; omega)]
      have hidx : (y + 1) * (width * 3) + j - (pixelsInRow mem sw base width).length =
          y * (width * 3) + j := by
        rw [pixelsInRow_length]; omega
      rw [hidx, ih (base + rowPitch) y j (by omega) hj]
      have harg : base + rowPitch + y * rowPitch = base + (y + 1) * rowPitch := by ring
      rw [harg]

theorem color_swizzle_eq_false : color_swizzle = false := by decide

/-- C5: for every width `w ≥ 1`, height `h ≥ 1` and reported row pitch
`p ≥ w*4`, the file written by `saveFramebufferImage` is the ppm header
(lines `P6`, `w`, `h`, `255`, each newline-terminated) followed by exactly
`w*h*3` pixel bytes with no padding between output rows; output pixel
`(x, y)` byte `k` is read from source offset `y*p + 4*x + k`, so each
source row starts `p` bytes after the previous one; and for `w = 640`,
`h = 512` the header is exactly the 15 bytes of `P6\n640\n512\n255\n`. -/
theorem saveFramebufferImage_C5 (mem : Nat → Nat) (w h p : Nat)
    (hw : 1 ≤ w) (hh : 1 ≤ h) (hp : w * 4 ≤ p) :
    (saveFramebufferFileBytes mem w h p).length = (ppmHeader w h).length + w * h * 3 ∧
    (rowsLoop mem color_swizzle w p 0 h).length = w * h * 3 ∧
    (∀ y, y < h → ∀ x, x < w → ∀ k, k < 3 →
      (rowsLoop mem color_swizzle w p 0 h).getD ((y * w + x) * 3 + k) 0 =
        mem (y * p + 4 * x + k)) ∧
    ppmHeader 640 512 = [80, 54, 10, 54, 52, 48, 10, 53, 49, 50, 10, 50, 53, 53, 10] := by
  have hlen : (rowsLoop mem color_swizzle w p 0 h).length = w * h * 3 := by
    rw [rowsLoop_length]; ring
  refine ⟨?_, hlen, ?_, by decide⟩
  · unfold saveFramebufferFileBytes
    rw [List.length_append, hlen]
  · intro y hy x hx k hk
    have hidx : (y * w + x) * 3 + k = y * (w * 3) + (x * 3 + k) := by ring
    rw [hidx, rowsLoop_getD mem color_swizzle w p h 0 y (x * 3 + k) hy (by omega)]
    rw [pixelsInRow_getD mem color_swizzle w (0 + y * p) x k hx hk]
    rw [color_swizzle_eq_false]
    have harg : 0 + y * p + 4 * x = y * p + 4 * x := by ring
    rw [harg]
    unfold pixelBytes
    match k with
    | 0 => simp
    | 1 => rfl
    | 2 => rfl

/-- Witness for C5 at `w = 1`, `h = 1`, `p = 4`, with memory byte `i`
holding value `i + 7`. -/
theorem saveFramebufferImage_C5_witness :
    (saveFramebufferFileBytes (fun i => i + 7) 1 1 4).length =
      (ppmHeader 1 1).length + 1 * 1 * 3 ∧
    (rowsLoop (fun i => i + 7) color_swizzle 1 4 0 1).length = 1 * 1 * 3 ∧
    (∀ y, y < 1 → ∀ x, x < 1 → ∀ k, k < 3 →
      (rowsLoop (fun i => i + 7) color_swizzle 1 4 0 1).getD ((y * 1 + x) * 3 + k) 0 =
        y * 4 + 4 * x + k + 7) ∧
    ppmHeader 640 512 = [80, 54, 10, 54, 52, 48, 10, 53, 49, 50, 10, 50, 53, 53, 10] :=
  saveFramebufferImage_C5 (fun i => i + 7) 1 1 4 (by decide) (by decide) (by decide)

/-- C6: the per-pixel swizzle decision of `saveFramebufferImage` is made
once by membership of the render target's pixel format in the fixed
blue-first set `{B8G8R8A8_SRGB, B8G8R8A8_UNORM, B8G8R8A8_SNORM}`: were the
format in that set the three bytes would be written reversed
(red, green, blue), and since it is not, the first three bytes of each
4-byte pixel are written in source order. -/
theorem saveFramebufferImage_swizzle_C6 (mem : Nat → Nat) (off : Nat) :
    color_swizzle = formatsBGR.contains color_format ∧
    pixelBytes mem off color_swizzle =
      (if formatsBGR.contains color_format then [mem (off + 2), mem (off + 1), mem off]
       else [mem off, mem (off + 1), mem (off + 2)]) := by
  constructor
  · rfl
  · rw [color_swizzle_eq_false]
    rfl

/-! ## `RenderImage::loadTextureFromFile` (textureimageheadless.cpp:1264-1542)

The function is embedded as the sequence of events it performs, driven by
the result of the external `stbi_load` decode (`none` models a null pixel
pointer: nonexistent, empty or corrupt file).  `use_staging` is the
constant `true` and `force_linear_tiling` the constant `false` in the
source, so the staging path is always the one recorded. -/

inductive ImageLayout
  | undefined
  | transferDstOptimal
  | shaderReadOnlyOptimal
  | general
deriving DecidableEq

inductive GpuRes
  | stagingBuffer
  | stagingMemory
  | textureImage
  | textureMemory
  | sampler
  | imageView
deriving DecidableEq

inductive LoadEvent
  | createRes (r : GpuRes)
  | barrier (srcAccess dstAccess : Nat) (oldLayout newLayout : ImageLayout)
  | copyBufferToImage
  | setTextureLayout (l : ImageLayout)
  | destroyRes (r : GpuRes)
deriving DecidableEq

/-- The events of `loadTextureFromFile`, in source order.  `decoded` is the
`stbi_load` result (width and height); on a null result the function throws
`std::runtime_error("failed to load texture image!")` at
textureimageheadless.cpp:1275-1277, before any Vulkan object for the
texture is created. -/
def loadTextureEvents (decoded : Option (Nat × Nat)) :
    List LoadEvent × Except String Unit :=
  match decoded with
  | none => ([], Except.error "failed to load texture image!")
  | some _ =>
    ([LoadEvent.createRes GpuRes.stagingBuffer,
      LoadEvent.createRes GpuRes.stagingMemory,
      LoadEvent.createRes GpuRes.textureImage,
      LoadEvent.createRes GpuRes.textureMemory,
      LoadEvent.barrier 0 VK_ACCESS_TRANSFER_WRITE_BIT
        ImageLayout.undefined ImageLayout.transferDstOptimal,
      LoadEvent.copyBufferToImage,
      LoadEvent.barrier VK_ACCESS_TRANSFER_WRITE_BIT VK_ACCESS_SHADER_READ_BIT
        ImageLayout.transferDstOptimal ImageLayout.shaderReadOnlyOptimal,
      LoadEvent.setTextureLayout ImageLayout.shaderReadOnlyOptimal,
      LoadEvent.destroyRes GpuRes.stagingMemory,
      LoadEvent.destroyRes GpuRes.stagingBuffer,
      LoadEvent.createRes GpuRes.sampler,
      LoadEvent.createRes GpuRes.imageView],
     Except.ok ())

/-- An event recorded into the texture upload command buffer. -/
def isTextureCmd : LoadEvent → Bool
  | LoadEvent.barrier _ _ _ _ => true
  | LoadEvent.copyBufferToImage => true
  | _ => false

/-- The image layout after applying one recorded command. -/
def applyTextureCmd : ImageLayout → LoadEvent → ImageLayout
  | _, LoadEvent.barrier _ _ _ newLayout => newLayout
  | l, _ => l

/-- The texture layout field recorded by `texture.imageLayout = ...`
(textureimageheadless.cpp:1470), if any. -/
def recordedTextureLayout (events : List LoadEvent) : Option ImageLayout :=
  events.foldl
    (fun acc e =>
      match e with
      | LoadEvent.setTextureLayout l => some l
      | _ => acc)
    none

/-- C4: on the staging path of `loadTextureFromFile`, the commands touching
the texture image are exactly two layout transitions with the
buffer-to-image copy between them: UNDEFINED to TRANSFER_DST (src access
none, dst access transfer-write), then TRANSFER_DST to SHADER_READ_ONLY
(src access transfer-write, dst access shader-read), and never any other
order; applying them starting from the image's UNDEFINED initial layout
ends at SHADER_READ_ONLY, which equals the layout recorded as the
texture's current layout when the function returns. -/
theorem loadTextureFromFile_transitions_C4 (wh : Nat × Nat) :
    ((loadTextureEvents (some wh)).1.filter isTextureCmd =
      [LoadEvent.barrier 0 VK_ACCESS_TRANSFER_WRITE_BIT
         ImageLayout.undefined ImageLayout.transferDstOptimal,
       LoadEvent.copyBufferToImage,
       LoadEvent.barrier VK_ACCESS_TRANSFER_WRITE_BIT VK_ACCESS_SHADER_READ_BIT
         ImageLayout.transferDstOptimal ImageLayout.shaderReadOnlyOptimal]) ∧
    ((loadTextureEvents (some wh)).1.filter isTextureCmd).foldl applyTextureCmd
        ImageLayout.undefined = ImageLayout.shaderReadOnlyOptimal ∧
    recordedTextureLayout (loadTextureEvents (some wh)).1 =
      some ImageLayout.shaderReadOnlyOptimal :=
  ⟨rfl, rfl, rfl⟩

/-- C7: when the decoder returns a null pixel pointer (`none`),
`loadTextureFromFile` raises the terminal decode error and the event trace
is empty: no staging buffer, staging memory, texture image, texture
memory, sampler or image view has been created. -/
theorem loadTextureFromFile_decodeFailure_C7 :
    loadTextureEvents none = ([], Except.error "failed to load texture image!") :=
  rfl

/-! ## Device bootstrap (textureimageheadless.cpp:188-234)

`pickPhysicalDevice` enumerates the physical devices (which succeeds with
`VK_SUCCESS` even when the count is zero) and then reads
`physical_devices[0]` with no emptiness check: on an empty vector this is
an out-of-bounds `std::vector::operator[]` access, i.e. undefined
behavior, not a checked fatal error.  `createLogicalDevice` scans the
queue families for `VK_QUEUE_GRAPHICS_BIT`; when none matches, the member
`queue_family_index` is left uninitialized and the zero-filled
`VkDeviceQueueCreateInfo` is passed to `vkCreateDevice` anyway — again no
error path exists for the no-graphics-family case. -/

inductive BootOutcome (α : Type)
  | ok (a : α)
  | fatalError (msg : String)
  | undefinedBehavior
deriving DecidableEq

/-- `RenderImage::pickPhysicalDevice`, over the list of physical devices
reported by the instance (each modelled by its queue family flag list). -/
def pickPhysicalDevice (devices : List (List Nat)) : BootOutcome (List Nat) :=
  match devices with
  | [] => BootOutcome.undefinedBehavior
  | d :: _ => BootOutcome.ok d

/-- The queue family scan of `RenderImage::createLogicalDevice`
(textureimageheadless.cpp:210-219): first index whose flags contain
`VK_QUEUE_GRAPHICS_BIT`. -/
def findGraphicsQueueFamily (families : List Nat) : Option Nat :=
  families.findIdx? (fun flags => flags &&& VK_QUEUE_GRAPHICS_BIT ≠ 0)

/-- `RenderImage::createLogicalDevice` over the selected device's queue
family flags: when no family has graphics capability the function
proceeds with an uninitialized family index and a zero-filled queue
create-info — undefined behavior rather than an error. -/
def createLogicalDevice (families : List Nat) : BootOutcome Nat :=
  match findGraphicsQueueFamily families with
  | some i => BootOutcome.ok i
  | none => BootOutcome.undefinedBehavior

/-- C3: with zero physical devices, `pickPhysicalDevice` does not
terminate with an error — it indexes the empty device vector (undefined
behavior); and with a single transfer-only queue family (flags 4),
`createLogicalDevice` likewise reaches undefined behavior instead of a
fatal error.  Neither outcome is a `fatalError`. -/
theorem bootstrap_C3_undefined_behavior :
    pickPhysicalDevice [] = BootOutcome.undefinedBehavior ∧
    createLogicalDevice [4] = BootOutcome.undefinedBehavior :=
  ⟨rfl, by decide⟩

/-! ## `RenderImage::createBuffer` (textureimageheadless.cpp:1630-1659)

Every Vulkan call inside `createBuffer` is wrapped in `VK_CHECK_RESULT`.
`VK_CHECK_RESULT` is defined in `VulkanTools.h`, which is not part of the
sources here; per the spec's error-handling design (section 7), any
graphics-API call returning a non-success status propagates immediately
and terminates the process.  The embedding therefore models a checked
call whose result is non-zero as `Except.error` (process termination).
The results the device returns for the four checked calls are an input of
the model. -/

structure DeviceEnv where
  createBufferResult : Int
  allocateMemoryResult : Int
  mapMemoryResult : Int
  bindBufferMemoryResult : Int

inductive BufEvent
  | createHandle (usageFlags : Nat) (size : Nat)
  | allocMemory
  | mapCopyUnmap (bytes : List Nat)
  | bindMemory
deriving DecidableEq

/-- Modelled from the spec: `VK_CHECK_RESULT` (VulkanTools.h, not under
the given sources) terminates the process when a checked call returns a
non-success status; success continues with the continuation. -/
def vkCheck {α : Type} (r : Int) (k : Except Int α) : Except Int α :=
  if r = 0 then k else Except.error r

/-- `RenderImage::createBuffer`: create the buffer handle, allocate
backing memory selected by `getMemoryTypeIndex`, optionally map / memcpy
`size` bytes of `data` / unmap, bind the memory, and return `VK_SUCCESS`.
The returned event list is the order of the operations performed. -/
def createBufferRun (env : DeviceEnv) (usageFlags memoryPropertyFlags : Nat)
    (size : Nat) (data : Option (Nat → Nat)) : Except Int (List BufEvent × Int) :=
  vkCheck env.createBufferResult <|
  vkCheck env.allocateMemoryResult <|
  match data with
  | some f =>
    vkCheck env.mapMemoryResult <|
    vkCheck env.bindBufferMemoryResult <|
    Except.ok
      ([BufEvent.createHandle usageFlags size, BufEvent.allocMemory,
        BufEvent.mapCopyUnmap ((List.range size).map f), BufEvent.bindMemory], 0)
  | none =>
    vkCheck env.bindBufferMemoryResult <|
    Except.ok
      ([BufEvent.createHandle usageFlags size, BufEvent.allocMemory,
        BufEvent.bindMemory], 0)

/-- C10: for every usage/property-flag combination, size and optional
initial-data pointer, `createBuffer` either terminates the process inside
a checked API call (the non-success result propagates, never reaching the
caller) or returns `VK_SUCCESS`; a non-fatal call therefore always yields
the full creation sequence, and when a data pointer was given the first
`size` bytes of that data are copied into the mapped memory before the
memory is bound. -/
theorem createBuffer_C10 (env : DeviceEnv) (usageFlags memoryPropertyFlags size : Nat)
    (data : Option (Nat → Nat)) :
    (∃ r, createBufferRun env usageFlags memoryPropertyFlags size data =
        Except.error r ∧ r ≠ 0) ∨
    (∃ events, createBufferRun env usageFlags memoryPropertyFlags size data =
        Except.ok (events, 0) ∧
      events =
        (match data with
         | some f =>
           [BufEvent.createHandle usageFlags size, BufEvent.allocMemory,
            BufEvent.mapCopyUnmap ((List.range size).map f), BufEvent.bindMemory]
         | none =>
           [BufEvent.createHandle usageFlags size, BufEvent.allocMemory,
            BufEvent.bindMemory])) := by
  unfold createBufferRun vkCheck
  by_cases h1 : env.createBufferResult = 0 <;> simp [h1]
  · by_cases h2 : env.allocateMemoryResult = 0 <;> simp [h2]
    · match data with
      | some f =>
        by_cases h3 : env.mapMemoryResult = 0 <;> simp [h3]
        · by_cases h4 : env.bindBufferMemoryResult = 0 <;> simp [h4]
      | none =>
        by_cases h4 : env.bindBufferMemoryResult = 0 <;> simp [h4]

/-! ## The texture pipeline's uniform buffer (textureimageheadless.cpp:995-1004)

`prepareGraphicsPipelineTexture` calls

  createBuffer(VK_BUFFER_USAGE_UNIFORM_BUFFER_BIT,
               HOST_VISIBLE | HOST_COHERENT,
               &uniform_buffer_modelview, &uniform_buffer_memory,
               sizeof(UniformBufferObject),
               &uniform_buffer_modelview);

The last argument — the initial-data pointer — is `&uniform_buffer_modelview`,
the address of the `VkBuffer` handle member itself, not `&ubo_scene`, the
camera-derived `UniformBufferObject` record set up in the constructor
(lines 84-87) and never referenced again.  Host memory is modelled by a
function from (region, byte offset) to byte value, with one region for
each of the two addresses involved. -/

/-- `sizeof(UniformBufferObject)`: two `glm::mat4` (64 bytes each), one
`glm::vec4` (16 bytes) and one `float` (4 bytes). -/
def sizeofUniformBufferObject : Nat := 64 + 64 + 16 + 4

inductive HostRegion
  | uboScene
  | uniformBufferHandleField
deriving DecidableEq

/-- The region the initial-data pointer at textureimageheadless.cpp:1004
actually points into: the `uniform_buffer_modelview` handle member. -/
def textureUboDataRegion : HostRegion := HostRegion.uniformBufferHandleField

def regionBytes (host : HostRegion → Nat → Nat) (r : HostRegion) (n : Nat) : List Nat :=
  (List.range n).map (host r)

/-- The bytes `createBuffer` memcpys into the uniform buffer's mapped
memory for the texture pipeline: `sizeof(UniformBufferObject)` bytes
starting at the data pointer it was given. -/
def textureUniformBufferContents (host : HostRegion → Nat → Nat) : List Nat :=
  regionBytes host textureUboDataRegion sizeofUniformBufferObject

/-- A concrete process state in which the `ubo_scene` record and the bytes
at `&uniform_buffer_modelview` differ (as they do in any real run, where
the former holds camera matrices and the latter a freshly created buffer
handle and neighboring struct bytes). -/
def exampleHost : HostRegion → Nat → Nat
  | HostRegion.uboScene, _ => 1
  | HostRegion.uniformBufferHandleField, _ => 0

/-- C1: the uniform buffer created by `prepareGraphicsPipelineTexture`
does have size `sizeof(UniformBufferObject)`, but its contents are the
bytes at `&uniform_buffer_modelview` — the `VkBuffer` handle member passed
as the initial-data pointer — not the camera-derived `ubo_scene` record,
which is never uploaded; at the `exampleHost` state the two byte strings
differ. -/
theorem uniformBuffer_C1_wrong_source :
    (∀ host, (textureUniformBufferContents host).length = sizeofUniformBufferObject) ∧
    textureUboDataRegion ≠ HostRegion.uboScene ∧
    textureUniformBufferContents exampleHost ≠
      regionBytes exampleHost HostRegion.uboScene sizeofUniformBufferObject := by
  refine ⟨?_, by decide, by decide⟩
  intro host
  unfold textureUniformBufferContents regionBytes
  simp

/-! ## `RenderImage::createCommandBuffer` — untextured frame (cpp:244-318)

The recorded commands are embedded as a list.  Floating-point values are
represented as rationals and the per-draw push-constant matrix
`glm::perspective(glm::radians(60.0f), width/height, 0.1f, 256.0f) *
glm::translate(glm::mat4(1.0f), v)` symbolically, by the parameters of the
two factors. -/

structure Vec3Q where
  x : ℚ
  y : ℚ
  z : ℚ
deriving DecidableEq

/-- Symbolic representation of a perspective-projection matrix composed
with a translation: the field values are the arguments of
`glm::perspective` (field of view in degrees, aspect ratio, near and far
planes) and of `glm::translate`. -/
structure MvpPush where
  fovyDegrees : ℚ
  aspect : ℚ
  zNear : ℚ
  zFar : ℚ
  translation : Vec3Q
deriving DecidableEq

inductive DrawCmd
  | beginRenderPass
  | setViewport (width height : Nat)
  | setScissor (width height : Nat)
  | bindDescriptorSets
  | bindPipeline
  | bindVertexBuffer
  | bindIndexBuffer
  | pushConstants (stageFlags : Nat) (value : MvpPush)
  | drawIndexed (indexCount instanceCount firstIndex vertexOffset firstInstance : Nat)
  | endRenderPass
deriving DecidableEq

/-- The three fixed world-space positions of the untextured draw loop
(textureimageheadless.cpp:292-296). -/
def trianglePositions : List Vec3Q :=
  [⟨-3/2, 0, -4⟩, ⟨0, 0, -5/2⟩, ⟨3/2, 0, -4⟩]

/-- The commands recorded by the untextured `createCommandBuffer`: render
pass begin, dynamic viewport and scissor, pipeline and buffer binds, then
for each position a push-constant update of the composed matrix followed
by one indexed draw of 3 indices and 1 instance. -/
def createCommandBufferCmds (width height : Nat) : List DrawCmd :=
  [DrawCmd.beginRenderPass,
   DrawCmd.setViewport width height,
   DrawCmd.setScissor width height,
   DrawCmd.bindPipeline,
   DrawCmd.bindVertexBuffer,
   DrawCmd.bindIndexBuffer] ++
  (trianglePositions.bind fun v =>
    [DrawCmd.pushConstants VK_SHADER_STAGE_VERTEX_BIT
       { fovyDegrees := 60, aspect := (width : ℚ) / (height : ℚ),
         zNear := 1/10, zFar := 256, translation := v },
     DrawCmd.drawIndexed 3 1 0 0 0]) ++
  [DrawCmd.endRenderPass]

def isDrawIndexed : DrawCmd → Bool
  | DrawCmd.drawIndexed _ _ _ _ _ => true
  | _ => false

/-- The spec-side matrix of C8: a fixed perspective projection (60
degrees, width/height aspect, near 0.1, far 256) composed with a
translation by `v`. -/
def mvpFor (width height : Nat) (v : Vec3Q) : MvpPush :=
  { fovyDegrees := 60, aspect := (width : ℚ) / (height : ℚ),
    zNear := 1/10, zFar := 256, translation := v }

/-- C8: the untextured frame contains exactly three indexed draw calls,
each of 3 indices and 1 instance, each immediately preceded by a
push-constant update on the vertex stage of the perspective-times-
translation matrix, with translations (-1.5, 0, -4), (0, 0, -2.5),
(1.5, 0, -4) in that order: the full recorded command list decomposes into
the fixed setup prefix, the three adjacent (push, draw) pairs in position
order, and the render pass end. -/
theorem untextured_frame_C8 (width height : Nat) :
    createCommandBufferCmds width height =
      [DrawCmd.beginRenderPass, DrawCmd.setViewport width height,
       DrawCmd.setScissor width height, DrawCmd.bindPipeline,
       DrawCmd.bindVertexBuffer, DrawCmd.bindIndexBuffer,
       DrawCmd.pushConstants VK_SHADER_STAGE_VERTEX_BIT
         (mvpFor width height ⟨-3/2, 0, -4⟩),
       DrawCmd.drawIndexed 3 1 0 0 0,
       DrawCmd.pushConstants VK_SHADER_STAGE_VERTEX_BIT
         (mvpFor width height ⟨0, 0, -5/2⟩),
       DrawCmd.drawIndexed 3 1 0 0 0,
       DrawCmd.pushConstants VK_SHADER_STAGE_VERTEX_BIT
         (mvpFor width height ⟨3/2, 0, -4⟩),
       DrawCmd.drawIndexed 3 1 0 0 0,
       DrawCmd.endRenderPass] ∧
    ((createCommandBufferCmds width height).filter isDrawIndexed).length = 3 ∧
    trianglePositions = [⟨-3/2, 0, -4⟩, ⟨0, 0, -5/2⟩, ⟨3/2, 0, -4⟩] :=
  ⟨rfl, rfl, rfl⟩

/-! ## Fence-gated submission (cpp:1589-1614 and 1664-1674)

`submitWork` and `flushCommandBuffer` both create a fresh fence, submit
exactly one command buffer, wait on that fence, and destroy it.
`submitWork` waits with timeout `UINT64_MAX`; `flushCommandBuffer` waits
with `DEFAULT_FENCE_TIMEOUT`.  Vulkan defines a `vkWaitForFences` timeout
of `UINT64_MAX` as an indefinite wait that never expires. -/

def UINT64_MAX : Nat := 2 ^ 64 - 1

/-- Modelled from the spec: `DEFAULT_FENCE_TIMEOUT` is defined in
`VulkanTools.h`, which is not among the given sources; the spec (section
5) describes it as a large-but-finite timeout.  Its upstream value is
100000000000 nanoseconds (100 seconds). -/
def DEFAULT_FENCE_TIMEOUT : Nat := 100000000000

inductive SyncEvent
  | createFence
  | queueSubmit
  | waitForFence (timeout : Nat)
  | destroyFence
deriving DecidableEq

/-- The two submission helpers of the pipeline. -/
inductive SubmitKind
  | viaSubmitWork
  | viaFlushCommandBuffer
deriving DecidableEq

/-- The fence timeout each helper passes to `vkWaitForFences`
(textureimageheadless.cpp:1672 and 1608). -/
def submissionTimeout : SubmitKind → Nat
  | SubmitKind.viaSubmitWork => UINT64_MAX
  | SubmitKind.viaFlushCommandBuffer => DEFAULT_FENCE_TIMEOUT

/-- The synchronization events each helper performs, in order. -/
def submissionEvents (k : SubmitKind) : List SyncEvent :=
  [SyncEvent.createFence, SyncEvent.queueSubmit,
   SyncEvent.waitForFence (submissionTimeout k), SyncEvent.destroyFence]

inductive SubmissionSite
  | textureUpload
  | vertexUpload
  | indexUpload
  | render
  | readback
deriving DecidableEq

/-- Every command-buffer submission the pipeline performs, in program
order, with the helper it goes through.  The texture upload
(`loadTextureFromFile`, textured run only) uses `flushCommandBuffer`; the
vertex and index staging copies, the render and the readback copy use
`submitWork`. -/
def pipelineSubmissions (useTexture : Bool) : List (SubmissionSite × SubmitKind) :=
  if useTexture then
    [(SubmissionSite.textureUpload, SubmitKind.viaFlushCommandBuffer),
     (SubmissionSite.vertexUpload, SubmitKind.viaSubmitWork),
     (SubmissionSite.indexUpload, SubmitKind.viaSubmitWork),
     (SubmissionSite.render, SubmitKind.viaSubmitWork),
     (SubmissionSite.readback, SubmitKind.viaSubmitWork)]
  else
    [(SubmissionSite.vertexUpload, SubmitKind.viaSubmitWork),
     (SubmissionSite.indexUpload, SubmitKind.viaSubmitWork),
     (SubmissionSite.render, SubmitKind.viaSubmitWork),
     (SubmissionSite.readback, SubmitKind.viaSubmitWork)]

/-- A `vkWaitForFences` call can return `VK_TIMEOUT` only when its timeout
parameter is not `UINT64_MAX`; Vulkan defines a timeout of `UINT64_MAX`
as waiting indefinitely. -/
def waitCanExpire (timeout : Nat) : Prop := timeout ≠ UINT64_MAX

/-- C9 counterexample: the fence wait of `submitWork` — used for the
vertex/index upload copies, the render and the readback copy — passes
`UINT64_MAX`, the Vulkan sentinel for an indefinite wait, so its wait is
not a finite timeout that can expire; only `flushCommandBuffer` (the
texture upload) waits with the finite `DEFAULT_FENCE_TIMEOUT`. -/
theorem fence_timeout_C9_counterexample :
    submissionTimeout SubmitKind.viaSubmitWork = UINT64_MAX ∧
    ¬ waitCanExpire (submissionTimeout SubmitKind.viaSubmitWork) ∧
    waitCanExpire (submissionTimeout SubmitKind.viaFlushCommandBuffer) := by
  refine ⟨rfl, ?_, ?_⟩
  · intro h
    exact h rfl
  · intro h
    exact absurd h (by decide)

/-- C9 amended: every command-buffer submission in the pipeline creates a
fresh fence for that submission, submits, and immediately waits on that
fence before the helper returns; the texture-upload wait uses the
large-but-finite `DEFAULT_FENCE_TIMEOUT` (whose expiry, a non-success
`vkWaitForFences` result, is fatal under `VK_CHECK_RESULT`), while the
waits of the other submissions pass `UINT64_MAX` and thus wait
indefinitely rather than with a finite timeout. -/
theorem fence_per_submission_C9 (useTexture : Bool) (s : SubmissionSite × SubmitKind)
    (hs : s ∈ pipelineSubmissions useTexture) :
    submissionEvents s.2 =
      [SyncEvent.createFence, SyncEvent.queueSubmit,
       SyncEvent.waitForFence (submissionTimeout s.2), SyncEvent.destroyFence] ∧
    (s.2 = SubmitKind.viaFlushCommandBuffer →
      waitCanExpire (submissionTimeout s.2) ∧ s.1 = SubmissionSite.textureUpload) ∧
    (s.2 = SubmitKind.viaSubmitWork → submissionTimeout s.2 = UINT64_MAX) := by
  refine ⟨rfl, ?_, ?_⟩
  · intro hk
    constructor
    · rw [hk]
      intro h
      exact absurd h (by decide)
    · cases useTexture with
      | false =>
        simp [pipelineSubmissions] at hs
        rcases hs with h | h | h | h <;> subst h <;> simp_all
      | true =>
        simp [pipelineSubmissions] at hs
        rcases hs with h | h | h | h | h <;> subst h <;> simp_all
  · intro hk
    rw [hk]
    rfl

/-- Witness for the amended C9 at the textured run's texture-upload
submission. -/
theorem fence_per_submission_C9_witness :
    submissionEvents SubmitKind.viaFlushCommandBuffer =
      [SyncEvent.createFence, SyncEvent.queueSubmit,
       SyncEvent.waitForFence (submissionTimeout SubmitKind.viaFlushCommandBuffer),
       SyncEvent.destroyFence] ∧
    (SubmitKind.viaFlushCommandBuffer = SubmitKind.viaFlushCommandBuffer →
      waitCanExpire (submissionTimeout SubmitKind.viaFlushCommandBuffer) ∧
      SubmissionSite.textureUpload = SubmissionSite.textureUpload) ∧
    (SubmitKind.viaFlushCommandBuffer = SubmitKind.viaSubmitWork →
      submissionTimeout SubmitKind.viaFlushCommandBuffer = UINT64_MAX) :=
  fence_per_submission_C9 true
    (SubmissionSite.textureUpload, SubmitKind.viaFlushCommandBuffer)
    (by simp [pipelineSubmissions])

end VulkanHeadless
